import Mathlib

/-!
Verification development for the EV charging-station locator.

This file gives a shallow embedding of the data model and operations of
the repository and proves the claims of the specification about them:

* the station-directory HTTP client (`src/lib/api.ts`: `ApiClient.makeRequest`,
  `ApiClient.searchStations`, `ApiClient.getStationById`) and its response
  cache (`ApiCache`);
* the distance utilities (`useDistanceCalculation`: `calculateDistance`,
  `formatDistance`, `isWithinRadius`);
* the geolocation hook state machine (`useGeolocation`);
* the Google Maps SDK loader (`loadGoogleMaps`).

JavaScript numbers are modelled as `ℚ` (exact arithmetic; the note of the
spec on numeric tolerance covers floating-point rounding), except for the
trigonometric distance computation which is modelled over `ℝ`.
Timestamps (`Date.now()`) are modelled as `ℤ`.  Asynchronous HTTP is
modelled by passing the behaviour of the network as an explicit function from
endpoint and query to a fetch outcome; the `try`/`catch` in
`makeRequest` is modelled by the outcome type covering thrown errors.
-/

namespace EvLocator

/-! ### Constants (`src/lib/constants.ts`) -/

namespace ERROR_MESSAGES

def NETWORK_ERROR : String := "Network connection failed. Please check your internet connection."

def LOCATION_DENIED : String := "Location access denied. Please enable location services."

def LOCATION_UNAVAILABLE : String := "Location services are not available on this device."

def STATION_NOT_FOUND : String := "Station not found. Please try a different search."

def INVALID_COORDINATES : String := "Invalid coordinates provided."

def API_RATE_LIMITED : String := "Too many requests. Please wait a moment and try again."

def MAPS_LOAD_FAILED : String := "Failed to load maps. Please refresh the page."

def GENERIC_ERROR : String := "An unexpected error occurred. Please try again."

end ERROR_MESSAGES

namespace OPEN_CHARGE_MAP_CONFIG

def baseUrl : String := "https://api.openchargemap.io/v3"

def defaultRadius : ℚ := 25

def maxStationsPerRequest : ℚ := 100

def countryCode : String := "US"

def includeComments : Bool := true

def verbose : Bool := false

end OPEN_CHARGE_MAP_CONFIG

/-! ### Data model (`src/types/station.ts`) -/

/-- `Location` from `station.ts`; optional fields are `Option`s. -/
structure Location where
  latitude : ℚ
  longitude : ℚ
  address : String
  city : String
  state : Option String := none
  country : String
  postcode : Option String := none
deriving DecidableEq

/-- `Connection` from `station.ts`. -/
structure Connection where
  id : ℚ
  connectionTypeId : ℚ
  connectionType : String
  reference : Option String := none
  statusTypeId : ℚ
  statusType : String
  levelId : ℚ
  levelTitle : String
  powerKW : Option ℚ := none
  currentTypeId : ℚ
  currentType : String
  voltage : Option ℚ := none
  amperage : Option ℚ := none
  quantity : ℚ
deriving DecidableEq

/-- `StatusType` from `station.ts`. -/
structure StatusType where
  id : ℚ
  title : String
  isOperational : Bool
  isUserSelectable : Bool
deriving DecidableEq

/-- `ChargingStation` from `station.ts` (the fields the claims can reach;
the `operator`, `usageType` and untyped `metadataValues` blocks of the source are
kept abstract as they never influence the claimed behaviour). -/
structure ChargingStation where
  id : ℚ
  uuid : String
  dataProviderId : ℚ
  operatorId : Option ℚ := none
  usageTypeId : Option ℚ := none
  addressInfo : Location
  connections : List Connection
  numberOfPoints : Option ℚ := none
  generalComments : Option String := none
  statusTypeId : ℚ
  statusType : StatusType
  dataQualityLevel : ℚ
  dateCreated : String
  submissionStatusTypeId : ℚ
  distance : Option ℚ := none
  distanceUnit : Option String := none
  isFavorite : Option Bool := none
  isRecentlyViewed : Option Bool := none
deriving DecidableEq

/-- The `powerKW` sub-object of `SearchFilters`. -/
structure PowerRange where
  min : Option ℚ := none
  max : Option ℚ := none
deriving DecidableEq

/-- `SearchFilters` from `station.ts`: every field is optional. -/
structure SearchFilters where
  location : Option (ℚ × ℚ) := none
  radius : Option ℚ := none
  connectionTypes : Option (List ℚ) := none
  levelIds : Option (List ℚ) := none
  statusTypes : Option (List ℚ) := none
  operatorIds : Option (List ℚ) := none
  countryCode : Option String := none
  maxResults : Option ℚ := none
  openData : Option Bool := none
  includeComments : Option Bool := none
  powerKW : Option PowerRange := none
  usageTypeId : Option ℚ := none
deriving DecidableEq

/-- The `meta` block of `ApiResponse`. -/
structure ResponseMeta where
  total : Nat
  page : Nat
  limit : ℚ
deriving DecidableEq

/-- `ApiResponse<T>` from `station.ts`. -/
structure ApiResponse (D : Type) where
  data : D
  success : Bool
  message : Option String := none
  error : Option String := none
  meta : Option ResponseMeta := none
deriving DecidableEq

/-! ### Query-string construction (`ApiClient.makeRequest` lines 25-35)

A JavaScript value handed to the params record.  `makeRequest` skips a
parameter when the value is strictly equal to `undefined`, `null` or the
empty string, and appends array values element-wise; the rendered value
itself (`value.toString()`) is kept abstract, since the claims only
concern which parameters appear. -/
inductive JsVal where
  | undef
  | null
  | str (s : String)
  | num (q : ℚ)
  | bool (b : Bool)
  | arr (xs : List JsVal)

/-- One `(key, value)` entry of the params record, flattened the way the
`forEach` in `makeRequest` appends it to `url.searchParams`. -/
def appendParam (key : String) (v : JsVal) : List (String × JsVal) :=
  match v with
  | .undef => []
  | .null => []
  | .str s => if s = "" then [] else [(key, .str s)]
  | .arr xs => xs.map (fun x => (key, x))
  | v => [(key, v)]

/-- The full query built from a params record (in insertion order). -/
def buildQuery : List (String × JsVal) → List (String × JsVal)
  | [] => []
  | (k, v) :: rest => appendParam k v ++ buildQuery rest

/-- The `key` parameter prepended when the API key is configured. -/
def keyParams : Option String → List (String × JsVal)
  | some k => [("key", JsVal.str k)]
  | none => []

/-! ### The directory client (`src/lib/api.ts`) -/

/-- What one `fetch` of the directory API can come back as:
a response (with HTTP status, status text and a JSON body that either
decodes or throws with a message), or a thrown failure (network error;
`some msg` when the thrown value is an `Error` with message `msg`,
`none` for a non-`Error` throw). -/
inductive FetchOutcome (S : Type) where
  | response (status : Nat) (statusText : String) (body : Except String (List S))
  | netFailure (errMsg : Option String)

/-- `Response.ok`: status in the 2xx range. -/
def responseOk (status : Nat) : Bool :=
  decide (200 ≤ status) && decide (status ≤ 299)

/-- The generic API error thrown for a non-2xx, non-429 response:
`API Error: ${response.status} ${response.statusText}`. -/
def apiErrorMessage (status : Nat) (statusText : String) : String :=
  "API Error: " ++ toString status ++ " " ++ statusText

/-- The body of `makeRequest` after the request settles: the `!response.ok`
checks, the JSON decode, the success envelope, and the `catch` block that
turns every thrown error into a failure envelope. -/
def processResponse {S : Type} (o : FetchOutcome S) : ApiResponse (List S) :=
  match o with
  | .response status statusText body =>
    if responseOk status then
      match body with
      | .ok data =>
        { data := data, success := true,
          meta := some { total := data.length, page := 1,
                         limit := OPEN_CHARGE_MAP_CONFIG.maxStationsPerRequest } }
      | .error msg =>
        { data := [], success := false, error := some msg }
    else if status = 429 then
      { data := [], success := false, error := some ERROR_MESSAGES.API_RATE_LIMITED }
    else
      { data := [], success := false, error := some (apiErrorMessage status statusText) }
  | .netFailure errMsg =>
    { data := [], success := false,
      error := some (errMsg.getD ERROR_MESSAGES.GENERIC_ERROR) }

/-- The error messages the environment supplies inside an outcome (a JSON
message of a decode error, or the message of a thrown `Error`). -/
def FetchOutcome.envMsgs {S : Type} : FetchOutcome S → List String
  | .response _ _ (.error m) => [m]
  | .response _ _ (.ok _) => []
  | .netFailure (some m) => [m]
  | .netFailure none => []

/-- `ApiClient.makeRequest`: builds the query from the params record (with
the optional API key) and converts the settled fetch into the uniform
envelope.  `net` is the environment: what the fetch of a given endpoint
and query settles to. -/
def makeRequest {S : Type} (apiKey : Option String)
    (net : String → List (String × JsVal) → FetchOutcome S)
    (endpoint : String) (params : List (String × JsVal)) : ApiResponse (List S) :=
  processResponse (net endpoint (keyParams apiKey ++ buildQuery params))

/-- JavaScript `a || b` for an optional string (`undefined` and `""` are
falsy). -/
def jsOrString (o : Option String) (d : String) : String :=
  match o with
  | none => d
  | some s => if s = "" then d else s

/-- JavaScript `a || b` for an optional number (`undefined` and `0` are
falsy). -/
def jsOrNum (o : Option ℚ) (d : ℚ) : ℚ :=
  match o with
  | none => d
  | some q => if q = 0 then d else q

/-- JavaScript `a || b` for an optional boolean. -/
def jsOrBool (o : Option Bool) (d : Bool) : Bool :=
  match o with
  | none => d
  | some b => b || d

/-- The unconditional part of the `params` record in `searchStations`. -/
def SearchFilters.baseParams (f : SearchFilters) : List (String × JsVal) :=
  [("output", .str "json"),
   ("countrycode", .str (jsOrString f.countryCode OPEN_CHARGE_MAP_CONFIG.countryCode)),
   ("maxresults", .num (jsOrNum f.maxResults OPEN_CHARGE_MAP_CONFIG.maxStationsPerRequest)),
   ("compact", .bool (!OPEN_CHARGE_MAP_CONFIG.verbose)),
   ("verbose", .bool OPEN_CHARGE_MAP_CONFIG.verbose),
   ("includecomments", .bool (jsOrBool f.includeComments OPEN_CHARGE_MAP_CONFIG.includeComments))]

/-- `if (filters.location) { params.latitude = ...; params.longitude = ... }`. -/
def SearchFilters.locationParams (f : SearchFilters) : List (String × JsVal) :=
  match f.location with
  | some l => [("latitude", .num l.1), ("longitude", .num l.2)]
  | none => []

/-- `if (filters.radius) { params.distance = ...; params.distanceunit = "Miles" }`
(`0` is falsy, so a zero radius adds nothing). -/
def SearchFilters.radiusParams (f : SearchFilters) : List (String × JsVal) :=
  match f.radius with
  | some r => if r = 0 then [] else [("distance", .num r), ("distanceunit", .str "Miles")]
  | none => []

/-- `if (filters.connectionTypes && filters.connectionTypes.length > 0)`. -/
def SearchFilters.connectionParams (f : SearchFilters) : List (String × JsVal) :=
  match f.connectionTypes with
  | some ids => if ids = [] then [] else [("connectiontypeid", .arr (ids.map JsVal.num))]
  | none => []

/-- `if (filters.levelIds && filters.levelIds.length > 0)`. -/
def SearchFilters.levelParams (f : SearchFilters) : List (String × JsVal) :=
  match f.levelIds with
  | some ids => if ids = [] then [] else [("levelid", .arr (ids.map JsVal.num))]
  | none => []

/-- `if (filters.statusTypes && filters.statusTypes.length > 0)`. -/
def SearchFilters.statusParams (f : SearchFilters) : List (String × JsVal) :=
  match f.statusTypes with
  | some ids => if ids = [] then [] else [("statustypeid", .arr (ids.map JsVal.num))]
  | none => []

/-- `if (filters.operatorIds && filters.operatorIds.length > 0)`. -/
def SearchFilters.operatorParams (f : SearchFilters) : List (String × JsVal) :=
  match f.operatorIds with
  | some ids => if ids = [] then [] else [("operatorid", .arr (ids.map JsVal.num))]
  | none => []

/-- `if (filters.powerKW) { if (filters.powerKW.min) ...; if (filters.powerKW.max) ... }`
(`0` is falsy for both bounds). -/
def SearchFilters.powerParams (f : SearchFilters) : List (String × JsVal) :=
  match f.powerKW with
  | none => []
  | some p =>
    (match p.min with
     | some m => if m = 0 then [] else [("minpowerkw", .num m)]
     | none => []) ++
    (match p.max with
     | some m => if m = 0 then [] else [("maxpowerkw", .num m)]
     | none => [])

/-- `if (filters.usageTypeId)` (`0` is falsy). -/
def SearchFilters.usageParams (f : SearchFilters) : List (String × JsVal) :=
  match f.usageTypeId with
  | some u => if u = 0 then [] else [("usagetypeid", .num u)]
  | none => []

/-- `if (filters.openData !== undefined)` (`false` is kept). -/
def SearchFilters.openDataParams (f : SearchFilters) : List (String × JsVal) :=
  match f.openData with
  | some b => [("opendata", .bool b)]
  | none => []

/-- The whole `params` record `searchStations` hands to `makeRequest`,
in insertion order. -/
def SearchFilters.toParams (f : SearchFilters) : List (String × JsVal) :=
  f.baseParams ++ f.locationParams ++ f.radiusParams ++ f.connectionParams ++
  f.levelParams ++ f.statusParams ++ f.operatorParams ++ f.powerParams ++
  f.usageParams ++ f.openDataParams

/-- `ApiClient.searchStations`. -/
def searchStations (apiKey : Option String)
    (net : String → List (String × JsVal) → FetchOutcome ChargingStation)
    (filters : SearchFilters) : ApiResponse (List ChargingStation) :=
  makeRequest apiKey net "/poi" filters.toParams

/-- The params record of `ApiClient.getStationById`. -/
def stationByIdParams (id : ℚ) : List (String × JsVal) :=
  [("chargepointid", .num id), ("includecomments", .bool true), ("verbose", .bool true)]

/-- `ApiClient.getStationById`: unwraps the first element of a single-result
query; the failure branch returns the empty station object (`{}` cast to
`ChargingStation`, modelled as `none`) with the not-found message. -/
def getStationById (apiKey : Option String)
    (net : String → List (String × JsVal) → FetchOutcome ChargingStation)
    (id : ℚ) : ApiResponse (Option ChargingStation) :=
  let response := makeRequest apiKey net "/poi" (stationByIdParams id)
  if response.success = true ∧ 0 < response.data.length then
    { data := response.data.head?, success := response.success,
      message := response.message, error := response.error, meta := response.meta }
  else
    { data := none, success := false, error := some ERROR_MESSAGES.STATION_NOT_FOUND }

/-! ### The response cache (`ApiCache`, `src/lib/api.ts` lines 210-240)

The `Map` is modelled as an association list; `Date.now()` values are
passed in explicitly as integers. -/

/-- One stored value with its insertion timestamp. -/
structure CacheItem (V : Type) where
  data : V
  timestamp : ℤ
deriving DecidableEq

/-- The `Map<string, {data, timestamp}>` of the cache. -/
abbrev ApiCache (V : Type) := List (String × CacheItem V)

/-- `private ttl = 5 * 60 * 1000`. -/
def ApiCache.ttl : ℤ := 5 * 60 * 1000

/-- `Map.get`. -/
def ApiCache.find? {V : Type} (c : ApiCache V) (key : String) : Option (CacheItem V) :=
  (List.find? (fun p => p.1 == key) c).map Prod.snd

/-- `Map.delete`. -/
def ApiCache.delete {V : Type} (c : ApiCache V) (key : String) : ApiCache V :=
  c.filter (fun p => !(p.1 == key))

/-- `ApiCache.set`: stores the value with the current timestamp, overwriting
any entry for the key. -/
def ApiCache.set {V : Type} (c : ApiCache V) (key : String) (data : V) (now : ℤ) :
    ApiCache V :=
  (key, { data := data, timestamp := now }) :: ApiCache.delete c key

/-- `ApiCache.get` at time `now`: returns the entry while its age is within
the TTL, and otherwise deletes it and reports a miss.  Returns the looked-up
value together with the cache as it stands after the call. -/
def ApiCache.get {V : Type} (c : ApiCache V) (key : String) (now : ℤ) :
    Option V × ApiCache V :=
  match ApiCache.find? c key with
  | none => (none, c)
  | some item =>
    if ApiCache.ttl < now - item.timestamp then (none, ApiCache.delete c key)
    else (some item.data, c)

/-- `ApiCache.size`. -/
def ApiCache.size {V : Type} (c : ApiCache V) : Nat := c.length

/-! ### Distance utilities (`useDistanceCalculation`)

The haversine computation uses real trigonometric functions, so this part
of the embedding lives over `ℝ` (the floating point of the code idealized
as exact real arithmetic, as the tolerance note of the spec allows). -/

/-- `Math.atan2` (on real inputs; signed zeros do not arise here). -/
noncomputable def atan2 (y x : ℝ) : ℝ :=
  if 0 < x then Real.arctan (y / x)
  else if x < 0 then
    (if 0 ≤ y then Real.arctan (y / x) + Real.pi else Real.arctan (y / x) - Real.pi)
  else if 0 < y then Real.pi / 2
  else if y < 0 then -(Real.pi / 2)
  else 0

/-- The intermediate `a` of the haversine formula in `calculateDistance`. -/
noncomputable def haversineA (lat1 lon1 lat2 lon2 : ℝ) : ℝ :=
  Real.sin ((lat2 - lat1) * Real.pi / 180 / 2) * Real.sin ((lat2 - lat1) * Real.pi / 180 / 2) +
  Real.cos (lat1 * Real.pi / 180) * Real.cos (lat2 * Real.pi / 180) *
    Real.sin ((lon2 - lon1) * Real.pi / 180 / 2) * Real.sin ((lon2 - lon1) * Real.pi / 180 / 2)

/-- `useDistanceCalculation.calculateDistance`: haversine great-circle
distance with Earth radius `R = 3959` miles. -/
noncomputable def calculateDistance (lat1 lon1 lat2 lon2 : ℝ) : ℝ :=
  3959 * (2 * atan2 (Real.sqrt (haversineA lat1 lon1 lat2 lon2))
                    (Real.sqrt (1 - haversineA lat1 lon1 lat2 lon2)))

/-- `useDistanceCalculation.isWithinRadius`: the same distance with an
inclusive comparison against the radius. -/
def isWithinRadius (lat1 lon1 lat2 lon2 radius : ℝ) : Prop :=
  calculateDistance lat1 lon1 lat2 lon2 ≤ radius

/-- ECMAScript `toFixed` rounding of a non-negative rational to the nearest
integer, ties picking the larger integer. -/
def halfUp (q : ℚ) : Nat := (⌊q + 1/2⌋).toNat

/-- `Number.prototype.toFixed(0)` (sign split off first, as the ES spec does). -/
def jsToFixed0 (q : ℚ) : String :=
  if q < 0 then "-" ++ toString (halfUp (-q)) else toString (halfUp q)

/-- `Number.prototype.toFixed(1)`. -/
def jsToFixed1 (q : ℚ) : String :=
  let sign := if q < 0 then "-" else ""
  let n := halfUp ((if q < 0 then -q else q) * 10)
  sign ++ toString (n / 10) ++ "." ++ toString (n % 10)

/-- `useDistanceCalculation.formatDistance`. -/
def formatDistance (distance : ℚ) : String :=
  if distance < 1 then jsToFixed0 (distance * 5280) ++ " ft"
  else if distance < 10 then jsToFixed1 distance ++ " mi"
  else jsToFixed0 distance ++ " mi"

/-! ### Geolocation hook (`useGeolocation`)

The React state of the hook (plus the watch-handle state) as one record, and
each callback of the hook as a state transition.  `supported` stands for
`navigator.geolocation` being present. -/

/-- The `GeolocationState` record of the hook. -/
structure GeolocationState where
  latitude : Option ℚ
  longitude : Option ℚ
  accuracy : Option ℚ
  error : Option String
  loading : Bool
deriving DecidableEq

/-- The hook instance: its state, the watch handle, and a counter supplying
fresh `watchPosition` ids. -/
structure GeoHook where
  state : GeolocationState
  watchId : Option Nat
  nextWatchId : Nat
deriving DecidableEq

/-- The initial `useState` value. -/
def initGeoHook : GeoHook :=
  { state := { latitude := none, longitude := none, accuracy := none,
               error := none, loading := false },
    watchId := none, nextWatchId := 0 }

/-- The `switch` of the `onError` callback of the hook (codes 1, 2, 3 are
`PERMISSION_DENIED`, `POSITION_UNAVAILABLE`, `TIMEOUT`). -/
def geoErrorMessage (code : Nat) : String :=
  if code = 1 then ERROR_MESSAGES.LOCATION_DENIED
  else if code = 2 then ERROR_MESSAGES.LOCATION_UNAVAILABLE
  else if code = 3 then "Location request timed out. Please try again."
  else ERROR_MESSAGES.GENERIC_ERROR

/-- The `onSuccess` position callback. -/
def geoOnSuccess (lat lon acc : ℚ) (h : GeoHook) : GeoHook :=
  { h with state := { latitude := some lat, longitude := some lon,
                      accuracy := some acc, error := none, loading := false } }

/-- The `onError` callback. -/
def geoOnError (code : Nat) (h : GeoHook) : GeoHook :=
  { h with state := { h.state with error := some (geoErrorMessage code), loading := false } }

/-- `getCurrentPosition`: when the capability is absent it reports the
unavailable-location error synchronously with `loading: false`; otherwise it
enters the loading state (the eventual fix arrives through the callbacks). -/
def getCurrentPosition (supported : Bool) (h : GeoHook) : GeoHook :=
  if supported then
    { h with state := { h.state with loading := true, error := none } }
  else
    { h with
      state := { h.state with error := some ERROR_MESSAGES.LOCATION_UNAVAILABLE, loading := false } }

/-- `startWatching`: when the capability is absent it reports the
unavailable-location error synchronously (the code leaves `loading`
untouched on this path); otherwise it enters the loading state and records
a fresh watch handle. -/
def startWatching (supported : Bool) (h : GeoHook) : GeoHook :=
  if supported then
    { state := { h.state with loading := true, error := none },
      watchId := some h.nextWatchId, nextWatchId := h.nextWatchId + 1 }
  else
    { h with state := { h.state with error := some ERROR_MESSAGES.LOCATION_UNAVAILABLE } }

/-- `stopWatching`. -/
def stopWatching (h : GeoHook) : GeoHook :=
  match h.watchId with
  | some _ => { h with watchId := none, state := { h.state with loading := false } }
  | none => h

/-- `clearError`. -/
def clearError (h : GeoHook) : GeoHook :=
  { h with state := { h.state with error := none } }

/-- `reset`. -/
def geoReset (h : GeoHook) : GeoHook :=
  { state := { latitude := none, longitude := none, accuracy := none,
               error := none, loading := false },
    watchId := none, nextWatchId := h.nextWatchId }

/-- Every event the hook instance can process. -/
inductive GeoOp where
  | getPos
  | startWatch
  | stopWatch
  | clearErr
  | reset
  | success (lat lon acc : ℚ)
  | failure (code : Nat)
deriving DecidableEq

/-- One step of the hook. -/
def geoStep (supported : Bool) (h : GeoHook) : GeoOp → GeoHook
  | .getPos => getCurrentPosition supported h
  | .startWatch => startWatching supported h
  | .stopWatch => stopWatching h
  | .clearErr => clearError h
  | .reset => geoReset h
  | .success lat lon acc => geoOnSuccess lat lon acc h
  | .failure code => geoOnError code h

/-- The hook after processing a sequence of events from its initial state. -/
def geoRun (supported : Bool) (ops : List GeoOp) : GeoHook :=
  ops.foldl (geoStep supported) initGeoHook

/-! ### Google Maps SDK loader (`loadGoogleMaps`, google-maps utilities)

The module-level `googleMapsPromise` cache is threaded explicitly; the
promise a call creates is determined by the environment at creation time
(`window.google` already present / API key absent / a script injected). -/

/-- The environment `loadGoogleMaps` reads when it creates the promise. -/
structure MapsEnv where
  googleLoaded : Bool
  apiKey : Option String
deriving DecidableEq

/-- The promise `loadGoogleMaps` caches: resolved immediately from the
already-present SDK, rejected immediately for a missing key, or pending on
an injected script tag. -/
inductive MapsPromise where
  | resolvedExisting
  | rejectedNoKey
  | scriptLoad
deriving DecidableEq

/-- The executor of the promise built on a cache miss. -/
def mkMapsPromise (env : MapsEnv) : MapsPromise :=
  if env.googleLoaded then .resolvedExisting
  else
    match env.apiKey with
    | none => .rejectedNoKey
    | some _ => .scriptLoad

/-- Whether creating this promise appended a script tag (the only path that
starts an SDK download). -/
def initiatesLoad : MapsPromise → Bool
  | .scriptLoad => true
  | _ => false

/-- `loadGoogleMaps`: returns the cached promise when one exists, otherwise
creates one, caches it, and (in the script case) starts the load.  Result:
the returned promise, the module cache afterwards, and whether this call
started a download. -/
def loadGoogleMaps (env : MapsEnv) (cached : Option MapsPromise) :
    MapsPromise × Option MapsPromise × Bool :=
  match cached with
  | some p => (p, some p, false)
  | none => (mkMapsPromise env, some (mkMapsPromise env), initiatesLoad (mkMapsPromise env))

/-- A settled promise outcome. -/
inductive MapsOutcome where
  | resolved
  | rejected (msg : String)
deriving DecidableEq

/-- How each promise eventually settles: `scriptOk` is whether the script
tag fired `onload` rather than `onerror`, `googleAfterLoad` whether
`window.google.maps` exists after the load. -/
def settleMapsPromise (p : MapsPromise) (scriptOk googleAfterLoad : Bool) : MapsOutcome :=
  match p with
  | .resolvedExisting => .resolved
  | .rejectedNoKey => .rejected "Google Maps API key not found"
  | .scriptLoad =>
    if scriptOk then
      (if googleAfterLoad then .resolved else .rejected ERROR_MESSAGES.MAPS_LOAD_FAILED)
    else .rejected ERROR_MESSAGES.MAPS_LOAD_FAILED

/-- A whole sequence of `loadGoogleMaps` calls (each with the environment it
observes), starting from a given module cache: the list of (promise,
started-a-download) results, and the final cache. -/
def runLoads : List MapsEnv → Option MapsPromise →
    List (MapsPromise × Bool) × Option MapsPromise
  | [], cached => ([], cached)
  | env :: rest, cached =>
    let r := loadGoogleMaps env cached
    let tail := runLoads rest r.2.1
    ((r.1, r.2.2) :: tail.1, tail.2)

/-- A concrete station record, used to instantiate theorems at concrete
inputs. -/
def sampleStation : ChargingStation :=
  { id := 1, uuid := "u1", dataProviderId := 1,
    addressInfo := { latitude := 0, longitude := 0, address := "1 Main St",
                     city := "San Francisco", country := "US" },
    connections := [],
    statusTypeId := 50,
    statusType := { id := 50, title := "Operational", isOperational := true,
                    isUserSelectable := true },
    dataQualityLevel := 1, dateCreated := "2024-01-01",
    submissionStatusTypeId := 100 }

/-- A filter object whose radius and power bounds are all zero, used to
instantiate theorems at a concrete input. -/
def zeroFilters : SearchFilters :=
  { radius := some 0, powerKW := some { min := some 0, max := some 0 } }

/-! ## Theorems -/

/-! ### Shared helper lemmas -/

/-- Looking up a key right after `set` finds the fresh item. -/
theorem ApiCache.find?_set {V : Type} (c : ApiCache V) (k : String) (v : V) (t0 : ℤ) :
    ApiCache.find? (ApiCache.set c k v t0) k = some { data := v, timestamp := t0 } := by
  simp [ApiCache.find?, ApiCache.set, ApiCache.delete, List.find?]

/-- After `delete`, the key is gone. -/
theorem ApiCache.find?_delete {V : Type} (c : ApiCache V) (k : String) :
    ApiCache.find? (ApiCache.delete c k) k = none := by
  simp [ApiCache.find?, ApiCache.delete, List.find?_eq_none, List.mem_filter]

/-- Deleting the key just written removes exactly that entry. -/
theorem ApiCache.delete_set {V : Type} (c : ApiCache V) (k : String) (v : V) (t0 : ℤ) :
    ApiCache.delete (ApiCache.set c k v t0) k = ApiCache.delete c k := by
  simp [ApiCache.set, ApiCache.delete, List.filter_filter]

/-- C1: For every key `k` and value `v`, `ApiCache.set k v` followed by
`ApiCache.get k` returns `v` if and only if the elapsed time since the set
is within the five-minute TTL; once the elapsed time exceeds the TTL, the
`get` removes the entry (so `size` no longer counts it and a further lookup
misses) and returns the absent result `null`. -/
theorem apiCache_set_get_ttl {V : Type} (c : ApiCache V) (k : String) (v : V) (t0 t1 : ℤ) :
    ((ApiCache.get (ApiCache.set c k v t0) k t1).1 = some v ↔ t1 - t0 ≤ ApiCache.ttl)
    ∧ (ApiCache.ttl < t1 - t0 →
        (ApiCache.get (ApiCache.set c k v t0) k t1).1 = none
        ∧ ApiCache.find? (ApiCache.get (ApiCache.set c k v t0) k t1).2 k = none
        ∧ ApiCache.size (ApiCache.get (ApiCache.set c k v t0) k t1).2
            = ApiCache.size (ApiCache.set c k v t0) - 1) := by
  have hf := ApiCache.find?_set c k v t0
  constructor
  · simp only [ApiCache.get, hf]
    by_cases h : ApiCache.ttl < t1 - t0
    · rw [if_pos h]
      exact iff_of_false (by simp) (not_le.mpr h)
    · rw [if_neg h]
      exact iff_of_true rfl (not_lt.mp h)
  · intro h
    simp only [ApiCache.get, hf]
    rw [if_pos h]
    refine ⟨rfl, ?_, ?_⟩
    · rw [ApiCache.delete_set]
      exact ApiCache.find?_delete c k
    · rw [ApiCache.delete_set]
      simp [ApiCache.size, ApiCache.set]

/-- C1 witness: a concrete expired lookup (set at time 0, get at TTL + 1 ms). -/
theorem apiCache_set_get_ttl_witness :
    ApiCache.ttl < (300001 : ℤ) - 0
    ∧ (ApiCache.get (ApiCache.set ([] : ApiCache Nat) "k" 7 0) "k" 300001).1 = none
    ∧ ApiCache.find? (ApiCache.get (ApiCache.set ([] : ApiCache Nat) "k" 7 0) "k" 300001).2 "k" = none
    ∧ ApiCache.size (ApiCache.get (ApiCache.set ([] : ApiCache Nat) "k" 7 0) "k" 300001).2
        = ApiCache.size (ApiCache.set ([] : ApiCache Nat) "k" 7 0) - 1 := by
  have h := (apiCache_set_get_ttl ([] : ApiCache Nat) "k" 7 0 300001).2 (by decide)
  exact ⟨by decide, h.1, h.2.1, h.2.2⟩

/-- The generic API-error string is never empty (it starts with a fixed
prefix). -/
theorem apiErrorMessage_ne_empty (status : Nat) (statusText : String) :
    apiErrorMessage status statusText ≠ "" := by
  intro h
  have hlen := congrArg String.length h
  simp only [apiErrorMessage, String.length_append] at hlen
  have h1 : ("API Error: ").length = 11 := by decide
  have h2 : (" ").length = 1 := by decide
  have h3 : ("").length = 0 := by decide
  rw [h1, h2, h3] at hlen
  omega

/-- Status 429 is not a 2xx status. -/
theorem responseOk_429_eq_false : responseOk 429 = false := by decide

/-- Any failing envelope out of `processResponse` carries empty data and a
non-empty error message, provided the thrown messages of the environment are
non-empty. -/
theorem processResponse_failure_envelope (o : FetchOutcome ChargingStation)
    (hmsg : ∀ s ∈ FetchOutcome.envMsgs o, s ≠ "")
    (hfail : (processResponse o).success = false) :
    (processResponse o).data = [] ∧ ∃ e, (processResponse o).error = some e ∧ e ≠ "" := by
  cases o with
  | response status statusText body =>
    by_cases hok : responseOk status
    · cases body with
      | ok d => simp [processResponse, hok] at hfail
      | error msg =>
        refine ⟨by simp [processResponse, hok], msg, by simp [processResponse, hok], ?_⟩
        exact hmsg msg (by simp [FetchOutcome.envMsgs])
    · by_cases h429 : status = 429
      · exact ⟨by simp [processResponse, hok, h429, responseOk_429_eq_false],
          ERROR_MESSAGES.API_RATE_LIMITED,
          by simp [processResponse, hok, h429, responseOk_429_eq_false], by decide⟩
      · exact ⟨by simp [processResponse, hok, h429], apiErrorMessage status statusText,
          by simp [processResponse, hok, h429], apiErrorMessage_ne_empty status statusText⟩
  | netFailure m =>
    cases m with
    | some s =>
      exact ⟨rfl, s, rfl, hmsg s (by simp [FetchOutcome.envMsgs])⟩
    | none => exact ⟨rfl, ERROR_MESSAGES.GENERIC_ERROR, rfl, by decide⟩

/-- A non-empty data list only comes out of the HTTP-success JSON-decoded
branch, which sets `success := true`. -/
theorem processResponse_success_of_cons (o : FetchOutcome ChargingStation)
    (d : ChargingStation) (ds : List ChargingStation)
    (hd : (processResponse o).data = d :: ds) : (processResponse o).success = true := by
  cases o with
  | response status statusText body =>
    by_cases hok : responseOk status
    · cases body with
      | ok l => simp [processResponse, hok]
      | error msg => simp [processResponse, hok] at hd
    · by_cases h429 : status = 429
      · simp [processResponse, hok, h429, responseOk_429_eq_false] at hd
      · simp [processResponse, hok, h429] at hd
  | netFailure m => simp [processResponse] at hd

/-- `makeRequest` version of `processResponse_success_of_cons`. -/
theorem makeRequest_success_of_cons (apiKey : Option String)
    (net : String → List (String × JsVal) → FetchOutcome ChargingStation)
    (endpoint : String) (params : List (String × JsVal))
    (d : ChargingStation) (ds : List ChargingStation)
    (hd : (makeRequest apiKey net endpoint params).data = d :: ds) :
    (makeRequest apiKey net endpoint params).success = true :=
  processResponse_success_of_cons _ d ds hd

/-- C2: Every request through the directory client yields an envelope with
a success flag (the adapter is a total function of the settled fetch — no
thrown error escapes the `catch`), and on any failure — non-2xx response,
network error, or JSON decode error — the envelope has `success = false`,
an empty collection as data (`getStationById`: the empty station object,
modelled `none`), and a non-empty human-readable error string, assuming
the thrown `Error` values of the environment carry non-empty messages. -/
theorem makeRequest_error_envelope
    (apiKey : Option String)
    (net : String → List (String × JsVal) → FetchOutcome ChargingStation)
    (endpoint : String) (params : List (String × JsVal))
    (filters : SearchFilters) (id : ℚ)
    (status : Nat) (statusText : String) (body : Except String (List ChargingStation))
    (em : String) (m : Option String)
    (hmsg : ∀ ep q s, s ∈ FetchOutcome.envMsgs (net ep q) → s ≠ "") :
    (responseOk status = false →
      (processResponse (FetchOutcome.response status statusText body)).success = false)
    ∧ (processResponse (FetchOutcome.netFailure (S := ChargingStation) m)).success = false
    ∧ (responseOk status = true →
        (processResponse (FetchOutcome.response (S := ChargingStation) status statusText
          (Except.error em))).success = false)
    ∧ ((makeRequest apiKey net endpoint params).success = false →
        (makeRequest apiKey net endpoint params).data = []
        ∧ ∃ e, (makeRequest apiKey net endpoint params).error = some e ∧ e ≠ "")
    ∧ ((searchStations apiKey net filters).success = false →
        (searchStations apiKey net filters).data = []
        ∧ ∃ e, (searchStations apiKey net filters).error = some e ∧ e ≠ "")
    ∧ ((getStationById apiKey net id).success = false →
        (getStationById apiKey net id).data = none
        ∧ ∃ e, (getStationById apiKey net id).error = some e ∧ e ≠ "") := by
  refine ⟨?_, ?_, ?_, ?_, ?_, ?_⟩
  · intro hok
    simp only [processResponse]
    rw [if_neg (by simp [hok])]
    split_ifs <;> rfl
  · rfl
  · intro hok
    simp [processResponse, hok]
  · intro hfail
    exact processResponse_failure_envelope _ (fun s hs => hmsg _ _ s hs) hfail
  · intro hfail
    exact processResponse_failure_envelope _ (fun s hs => hmsg _ _ s hs) hfail
  · intro hfail
    by_cases hc : ((makeRequest apiKey net "/poi" (stationByIdParams id)).success = true
        ∧ 0 < (makeRequest apiKey net "/poi" (stationByIdParams id)).data.length)
    · exfalso
      simp only [getStationById, if_pos hc] at hfail
      rw [hc.1] at hfail
      simp at hfail
    · refine ⟨?_, ERROR_MESSAGES.STATION_NOT_FOUND, ?_, by decide⟩
      · simp [getStationById, hc]
      · simp [getStationById, hc]

/-- C2 witness: a network failure (non-`Error` throw) and a 500 response,
with the generic messages that result. -/
theorem makeRequest_error_envelope_witness :
    responseOk 500 = false
    ∧ (processResponse (FetchOutcome.response (S := ChargingStation) 500
        "Internal Server Error" (Except.ok []))).success = false
    ∧ (makeRequest (S := ChargingStation) none
        (fun _ _ => FetchOutcome.netFailure none) "/poi" []).success = false
    ∧ (makeRequest (S := ChargingStation) none
        (fun _ _ => FetchOutcome.netFailure none) "/poi" []).data = []
    ∧ (∃ e, (makeRequest (S := ChargingStation) none
        (fun _ _ => FetchOutcome.netFailure none) "/poi" []).error = some e ∧ e ≠ "")
    ∧ (getStationById none (fun _ _ => FetchOutcome.netFailure none) 1).data = none
    ∧ (∃ e, (getStationById none (fun _ _ => FetchOutcome.netFailure none) 1).error
        = some e ∧ e ≠ "") := by
  have h := makeRequest_error_envelope none (fun _ _ => FetchOutcome.netFailure none)
    "/poi" [] {} 1 500 "Internal Server Error" (Except.ok []) "x" none
    (by intro ep q s hs; simp [FetchOutcome.envMsgs] at hs)
  have h4 := h.2.2.2.1 rfl
  have h6 := h.2.2.2.2.2 rfl
  exact ⟨by decide, h.1 (by decide), rfl, h4.1, h4.2, h6.1, h6.2⟩

/-- C3: an HTTP 429 response makes `searchStations` return the specific
rate-limit message with an empty data array; every other non-2xx status
yields the generic API-error message, also with an empty data array. -/
theorem searchStations_http_error_messages
    (apiKey : Option String)
    (net1 net2 : String → List (String × JsVal) → FetchOutcome ChargingStation)
    (filters1 filters2 : SearchFilters)
    (st1 : String) (body1 : Except String (List ChargingStation))
    (status : Nat) (st2 : String) (body2 : Except String (List ChargingStation))
    (h1 : net1 "/poi" (keyParams apiKey ++ buildQuery (SearchFilters.toParams filters1))
        = FetchOutcome.response 429 st1 body1)
    (hok : responseOk status = false) (h429 : status ≠ 429)
    (h2 : net2 "/poi" (keyParams apiKey ++ buildQuery (SearchFilters.toParams filters2))
        = FetchOutcome.response status st2 body2) :
    searchStations apiKey net1 filters1
      = { data := [], success := false, error := some ERROR_MESSAGES.API_RATE_LIMITED }
    ∧ ERROR_MESSAGES.API_RATE_LIMITED = "Too many requests. Please wait a moment and try again."
    ∧ searchStations apiKey net2 filters2
      = { data := [], success := false, error := some (apiErrorMessage status st2) } := by
  refine ⟨?_, rfl, ?_⟩
  · simp only [searchStations, makeRequest, h1]
    simp [processResponse, responseOk]
  · simp only [searchStations, makeRequest, h2]
    simp only [processResponse]
    rw [if_neg (by simp [hok]), if_neg h429]

/-- C3 witness: concrete 429 and 500 responses. -/
theorem searchStations_http_error_messages_witness :
    responseOk 500 = false
    ∧ (500 ≠ 429)
    ∧ searchStations none (fun _ _ => FetchOutcome.response 429 "Too Many Requests"
        (Except.ok [])) {}
      = { data := [], success := false, error := some ERROR_MESSAGES.API_RATE_LIMITED }
    ∧ searchStations none (fun _ _ => FetchOutcome.response 500 "Server Error"
        (Except.ok [])) {}
      = { data := [], success := false, error := some (apiErrorMessage 500 "Server Error") } := by
  have h := searchStations_http_error_messages none
    (fun _ _ => FetchOutcome.response 429 "Too Many Requests" (Except.ok []))
    (fun _ _ => FetchOutcome.response 500 "Server Error" (Except.ok []))
    {} {} "Too Many Requests" (Except.ok []) 500 "Server Error" (Except.ok [])
    rfl (by decide) (by decide) rfl
  exact ⟨by decide, by decide, h.1, h.2.2⟩

/-- C4: `getStationById` whose underlying query succeeds with a zero-length
result set yields `success = false` with the station-not-found message;
when the result set is non-empty it returns the first element together with
the success flag and metadata of the original response. -/
theorem getStationById_first_or_not_found
    (apiKey : Option String)
    (net1 net2 : String → List (String × JsVal) → FetchOutcome ChargingStation)
    (id1 id2 : ℚ) (d : ChargingStation) (ds : List ChargingStation)
    (hempty : (makeRequest apiKey net1 "/poi" (stationByIdParams id1)).success = true)
    (hnil : (makeRequest apiKey net1 "/poi" (stationByIdParams id1)).data = [])
    (hcons : (makeRequest apiKey net2 "/poi" (stationByIdParams id2)).data = d :: ds) :
    getStationById apiKey net1 id1
      = { data := none, success := false, error := some ERROR_MESSAGES.STATION_NOT_FOUND }
    ∧ getStationById apiKey net2 id2
      = { data := some d,
          success := (makeRequest apiKey net2 "/poi" (stationByIdParams id2)).success,
          message := (makeRequest apiKey net2 "/poi" (stationByIdParams id2)).message,
          error := (makeRequest apiKey net2 "/poi" (stationByIdParams id2)).error,
          meta := (makeRequest apiKey net2 "/poi" (stationByIdParams id2)).meta }
    ∧ (makeRequest apiKey net2 "/poi" (stationByIdParams id2)).success = true := by
  have hsucc := makeRequest_success_of_cons apiKey net2 "/poi" (stationByIdParams id2) d ds hcons
  refine ⟨?_, ?_, hsucc⟩
  · simp [getStationById, hnil]
  · have hcond : (makeRequest apiKey net2 "/poi" (stationByIdParams id2)).success = true
        ∧ 0 < (makeRequest apiKey net2 "/poi" (stationByIdParams id2)).data.length :=
      ⟨hsucc, by rw [hcons]; simp⟩
    simp only [getStationById, if_pos hcond]
    rw [hcons]
    rfl

/-- C4 witness: a successful empty result set and a successful one-element
result set. -/
theorem getStationById_first_or_not_found_witness :
    (makeRequest (S := ChargingStation) none
      (fun _ _ => FetchOutcome.response 200 "OK" (Except.ok []))
      "/poi" (stationByIdParams 1)).success = true
    ∧ (makeRequest (S := ChargingStation) none
      (fun _ _ => FetchOutcome.response 200 "OK" (Except.ok []))
      "/poi" (stationByIdParams 1)).data = []
    ∧ getStationById none (fun _ _ => FetchOutcome.response 200 "OK" (Except.ok [])) 1
      = { data := none, success := false, error := some ERROR_MESSAGES.STATION_NOT_FOUND }
    ∧ getStationById none
        (fun _ _ => FetchOutcome.response 200 "OK" (Except.ok [sampleStation])) 2
      = { data := some sampleStation,
          success := (makeRequest none (fun _ _ => FetchOutcome.response 200 "OK"
            (Except.ok [sampleStation])) "/poi" (stationByIdParams 2)).success,
          message := (makeRequest none (fun _ _ => FetchOutcome.response 200 "OK"
            (Except.ok [sampleStation])) "/poi" (stationByIdParams 2)).message,
          error := (makeRequest none (fun _ _ => FetchOutcome.response 200 "OK"
            (Except.ok [sampleStation])) "/poi" (stationByIdParams 2)).error,
          meta := (makeRequest none (fun _ _ => FetchOutcome.response 200 "OK"
            (Except.ok [sampleStation])) "/poi" (stationByIdParams 2)).meta } := by
  have h := getStationById_first_or_not_found none
    (fun _ _ => FetchOutcome.response 200 "OK" (Except.ok []))
    (fun _ _ => FetchOutcome.response 200 "OK" (Except.ok [sampleStation]))
    1 2 sampleStation [] rfl rfl rfl
  exact ⟨rfl, rfl, h.1, h.2.1⟩

/-- The squared sine of a scaled difference is insensitive to the order of
the difference. -/
theorem sin_sq_sub_comm (a b : ℝ) :
    Real.sin ((a - b) * Real.pi / 180 / 2) * Real.sin ((a - b) * Real.pi / 180 / 2)
      = Real.sin ((b - a) * Real.pi / 180 / 2) * Real.sin ((b - a) * Real.pi / 180 / 2) := by
  have h : (a - b) * Real.pi / 180 / 2 = -((b - a) * Real.pi / 180 / 2) := by ring
  rw [h, Real.sin_neg]
  ring

/-- The haversine intermediate value is symmetric in the two points. -/
theorem haversineA_comm (lat1 lon1 lat2 lon2 : ℝ) :
    haversineA lat1 lon1 lat2 lon2 = haversineA lat2 lon2 lat1 lon1 := by
  unfold haversineA
  have hlat := sin_sq_sub_comm lat2 lat1
  have hlon := sin_sq_sub_comm lon2 lon1
  linear_combination hlat + Real.cos (lat1 * Real.pi / 180) * Real.cos (lat2 * Real.pi / 180) * hlon

/-- The haversine intermediate value vanishes on identical points. -/
theorem haversineA_self (lat lon : ℝ) : haversineA lat lon lat lon = 0 := by
  unfold haversineA
  simp

/-- The distance from a point to itself is zero. -/
theorem calculateDistance_self (lat lon : ℝ) : calculateDistance lat lon lat lon = 0 := by
  unfold calculateDistance
  rw [haversineA_self]
  norm_num [atan2, Real.sqrt_zero, Real.sqrt_one, Real.arctan_zero]

/-- C5: `calculateDistance` is symmetric — swapping origin and destination
yields the same value — and returns 0 for identical points. -/
theorem calculateDistance_symm_and_zero (lat1 lon1 lat2 lon2 lat lon : ℝ) :
    calculateDistance lat1 lon1 lat2 lon2 = calculateDistance lat2 lon2 lat1 lon1
    ∧ calculateDistance lat lon lat lon = 0 := by
  constructor
  · unfold calculateDistance
    rw [haversineA_comm]
  · exact calculateDistance_self lat lon

/-- Evaluates `halfUp` from a known floor. -/
theorem halfUp_eval (q : ℚ) (n : Nat) (h : ⌊q + 1/2⌋ = (n : ℤ)) : halfUp q = n := by
  rw [halfUp, h]
  simp

/-- Concrete branch bounds used to instantiate the formatting theorem. -/
theorem half_lt_one : (1:ℚ)/2 < 1 := by norm_num

theorem one_le_fiveQuarter : (1:ℚ) ≤ 21/4 := by norm_num

theorem fiveQuarter_lt_ten : (21:ℚ)/4 < 10 := by norm_num

theorem ten_le_fortyTwo : (10:ℚ) ≤ 42 := by norm_num

/-- C6: `formatDistance` renders a distance strictly under 1 mile as feet
with 0 decimal places, a distance in `[1, 10)` miles with one decimal
place, and a distance of at least 10 miles as whole miles; in particular
`formatDistance 0.5 = "2640 ft"`, `formatDistance 5.25 = "5.3 mi"` and
`formatDistance 42 = "42 mi"`. -/
theorem formatDistance_branches (d1 d2 d3 : ℚ)
    (h1 : d1 < 1) (h2a : 1 ≤ d2) (h2b : d2 < 10) (h3 : 10 ≤ d3) :
    formatDistance d1 = jsToFixed0 (d1 * 5280) ++ " ft"
    ∧ formatDistance d2 = jsToFixed1 d2 ++ " mi"
    ∧ formatDistance d3 = jsToFixed0 d3 ++ " mi"
    ∧ formatDistance (1/2) = "2640 ft"
    ∧ formatDistance (21/4) = "5.3 mi"
    ∧ formatDistance 42 = "42 mi" := by
  have e1 : halfUp (2640:ℚ) = 2640 := halfUp_eval _ _ (by norm_num [Int.floor_eq_iff])
  have e2 : halfUp ((21:ℚ)/4 * 10) = 53 := halfUp_eval _ _ (by norm_num [Int.floor_eq_iff])
  have e3 : halfUp (42:ℚ) = 42 := halfUp_eval _ _ (by norm_num [Int.floor_eq_iff])
  refine ⟨?_, ?_, ?_, ?_, ?_, ?_⟩
  · rw [formatDistance, if_pos h1]
  · rw [formatDistance, if_neg (by linarith), if_pos h2b]
  · rw [formatDistance, if_neg (by linarith), if_neg (by linarith)]
  · rw [formatDistance, if_pos half_lt_one, show ((1:ℚ)/2 * 5280) = 2640 by norm_num,
      jsToFixed0, if_neg (show ¬((2640:ℚ) < 0) by norm_num), e1]
    decide
  · rw [formatDistance, if_neg (show ¬((21:ℚ)/4 < 1) by norm_num), if_pos fiveQuarter_lt_ten]
    simp only [jsToFixed1, if_neg (show ¬((21:ℚ)/4 < 0) by norm_num)]
    rw [e2]
    decide
  · rw [formatDistance, if_neg (show ¬((42:ℚ) < 1) by norm_num),
      if_neg (show ¬((42:ℚ) < 10) by norm_num),
      jsToFixed0, if_neg (show ¬((42:ℚ) < 0) by norm_num), e3]
    decide

/-- C6 witness: the three branches instantiated at 0.5, 5.25 and 42 miles. -/
theorem formatDistance_branches_witness :
    ((1:ℚ)/2 < 1) ∧ ((1:ℚ) ≤ 21/4) ∧ ((21:ℚ)/4 < 10) ∧ ((10:ℚ) ≤ 42)
    ∧ formatDistance (1/2) = jsToFixed0 ((1/2) * 5280) ++ " ft"
    ∧ formatDistance (21/4) = jsToFixed1 (21/4) ++ " mi"
    ∧ formatDistance 42 = jsToFixed0 42 ++ " mi"
    ∧ formatDistance (1/2) = "2640 ft"
    ∧ formatDistance (21/4) = "5.3 mi"
    ∧ formatDistance 42 = "42 mi" := by
  have h := formatDistance_branches (1/2) (21/4) 42 half_lt_one one_le_fiveQuarter
    fiveQuarter_lt_ten ten_le_fortyTwo
  exact ⟨half_lt_one, one_le_fiveQuarter, fiveQuarter_lt_ten, ten_le_fortyTwo,
    h.1, h.2.1, h.2.2.1, h.2.2.2.1, h.2.2.2.2.1, h.2.2.2.2.2⟩

/-- C7: `isWithinRadius` holds exactly when `calculateDistance` on the same
pair is at most the radius; in particular it holds when the distance equals
the radius exactly (inclusive boundary). -/
theorem isWithinRadius_iff_le (lat1 lon1 lat2 lon2 radius : ℝ) :
    (isWithinRadius lat1 lon1 lat2 lon2 radius
      ↔ calculateDistance lat1 lon1 lat2 lon2 ≤ radius)
    ∧ (calculateDistance lat1 lon1 lat2 lon2 = radius →
        isWithinRadius lat1 lon1 lat2 lon2 radius) :=
  ⟨Iff.rfl, fun h => le_of_eq h⟩

/-- C7 witness: the boundary case at the origin with radius 0. -/
theorem isWithinRadius_iff_le_witness :
    calculateDistance 0 0 0 0 = 0 ∧ isWithinRadius 0 0 0 0 0 :=
  ⟨calculateDistance_self 0 0, (isWithinRadius_iff_le 0 0 0 0 0).2 (calculateDistance_self 0 0)⟩

/-- With the geolocation capability absent, no event of the hook ever sets
the loading flag (only the supported branches of `getCurrentPosition` and
`startWatching` do). -/
theorem geoStep_loading_false (h : GeoHook) (op : GeoOp) (hl : h.state.loading = false) :
    (geoStep false h op).state.loading = false := by
  cases op with
  | getPos => simp [geoStep, getCurrentPosition]
  | startWatch => simp [geoStep, startWatching, hl]
  | stopWatch =>
    cases hw : h.watchId <;> simp [geoStep, stopWatching, hw, hl]
  | clearErr => simp [geoStep, clearError, hl]
  | reset => simp [geoStep, geoReset]
  | success lat lon acc => simp [geoStep, geoOnSuccess]
  | failure code => simp [geoStep, geoOnError]

/-- With the capability absent, every reachable hook state has
`loading = false`. -/
theorem geoRun_loading_false (ops : List GeoOp) :
    (geoRun false ops).state.loading = false := by
  suffices h : ∀ st : GeoHook, st.state.loading = false →
      (ops.foldl (geoStep false) st).state.loading = false from h initGeoHook rfl
  induction ops with
  | nil => exact fun st hst => hst
  | cons op rest ih =>
    intro st hst
    exact ih _ (geoStep_loading_false st op hst)

/-- C8: when the browser geolocation capability is absent, any call to
obtain a position (`getCurrentPosition` or `startWatching`), in any
reachable state of the hook, synchronously produces a failed state carrying
the unavailable-location message with the loading flag false (no residual
loading state). -/
theorem useGeolocation_unsupported_failure (ops : List GeoOp) :
    (getCurrentPosition false (geoRun false ops)).state.error
      = some ERROR_MESSAGES.LOCATION_UNAVAILABLE
    ∧ (getCurrentPosition false (geoRun false ops)).state.loading = false
    ∧ (startWatching false (geoRun false ops)).state.error
      = some ERROR_MESSAGES.LOCATION_UNAVAILABLE
    ∧ (startWatching false (geoRun false ops)).state.loading = false := by
  have hl := geoRun_loading_false ops
  exact ⟨by simp [getCurrentPosition], by simp [getCurrentPosition],
    by simp [startWatching], by simp [startWatching, hl]⟩

/-- Once a promise is cached, every further call returns it verbatim and
never starts another download. -/
theorem runLoads_cached (envs : List MapsEnv) (p : MapsPromise) :
    (runLoads envs (some p)).1 = envs.map (fun _ => (p, false))
    ∧ (runLoads envs (some p)).2 = some p := by
  induction envs with
  | nil => exact ⟨rfl, rfl⟩
  | cons e rest ih =>
    simp [runLoads, loadGoogleMaps, ih.1, ih.2]

/-- C9: `loadGoogleMaps` initiates the SDK load at most once per process.
For an arbitrary first-call environment `env` (API key present or absent):
the first call creates and caches the outcome, every subsequent call in the
process returns that same cached promise without starting another load, and
over any whole call sequence at most one script download starts.  The
failure outcomes are cached like any other: with the key absent the cached
promise is the rejection (environment `envNoKey`), and a script-error
failure settles the cached promise as rejected. -/
theorem loadGoogleMaps_singleton (env envNoKey env2 : MapsEnv) (envs : List MapsEnv)
    (p : MapsPromise) (g : Bool)
    (hg : envNoKey.googleLoaded = false) (hk : envNoKey.apiKey = none) :
    (loadGoogleMaps env none).2.1 = some (loadGoogleMaps env none).1
    ∧ (loadGoogleMaps envNoKey none).1 = MapsPromise.rejectedNoKey
    ∧ settleMapsPromise MapsPromise.scriptLoad false g
      = MapsOutcome.rejected ERROR_MESSAGES.MAPS_LOAD_FAILED
    ∧ loadGoogleMaps env2 (some p) = (p, some p, false)
    ∧ (runLoads (env :: envs) none).1.map Prod.fst
      = (loadGoogleMaps env none).1 :: envs.map (fun _ => (loadGoogleMaps env none).1)
    ∧ List.count true ((runLoads (env :: envs) none).1.map Prod.snd) ≤ 1 := by
  refine ⟨rfl, ?_, rfl, rfl, ?_, ?_⟩
  · simp [loadGoogleMaps, mkMapsPromise, hg, hk]
  · have hc := runLoads_cached envs (mkMapsPromise env)
    simp [runLoads, loadGoogleMaps, hc.1]
  · have hc := runLoads_cached envs (mkMapsPromise env)
    simp only [runLoads, loadGoogleMaps, hc.1, List.map_cons, List.count_cons]
    have hz : List.count true (List.map Prod.snd
        (envs.map (fun _ => (mkMapsPromise env, false)))) = 0 := by
      simp [List.count_replicate]
    rw [hz]
    cases initiatesLoad (mkMapsPromise env) <;> simp

/-- C9 witness: a process whose first call has the API key present and not
yet loaded — so exactly one script download really starts — followed by a
further call, plus a missing-key process for the cached failure outcome. -/
theorem loadGoogleMaps_singleton_witness :
    (MapsEnv.mk false none).googleLoaded = false
    ∧ (MapsEnv.mk false none).apiKey = none
    ∧ (loadGoogleMaps (MapsEnv.mk false (some "k")) none).2.1
      = some (loadGoogleMaps (MapsEnv.mk false (some "k")) none).1
    ∧ (loadGoogleMaps (MapsEnv.mk false none) none).1 = MapsPromise.rejectedNoKey
    ∧ settleMapsPromise MapsPromise.scriptLoad false false
      = MapsOutcome.rejected ERROR_MESSAGES.MAPS_LOAD_FAILED
    ∧ loadGoogleMaps (MapsEnv.mk true (some "k")) (some MapsPromise.scriptLoad)
      = (MapsPromise.scriptLoad, some MapsPromise.scriptLoad, false)
    ∧ (runLoads [MapsEnv.mk false (some "k"), MapsEnv.mk false (some "k")] none).1.map Prod.fst
      = (loadGoogleMaps (MapsEnv.mk false (some "k")) none).1
        :: [MapsEnv.mk false (some "k")].map
             (fun _ => (loadGoogleMaps (MapsEnv.mk false (some "k")) none).1)
    ∧ List.count true ((runLoads [MapsEnv.mk false (some "k"), MapsEnv.mk false (some "k")]
        none).1.map Prod.snd) ≤ 1 := by
  have h := loadGoogleMaps_singleton (MapsEnv.mk false (some "k")) (MapsEnv.mk false none)
    (MapsEnv.mk true (some "k")) [MapsEnv.mk false (some "k")] MapsPromise.scriptLoad false
    rfl rfl
  exact ⟨rfl, rfl, h.1, h.2.1, h.2.2.1, h.2.2.2.1, h.2.2.2.2.1, h.2.2.2.2.2⟩

/-- Everything `appendParam` emits keeps the key of the parameter. -/
theorem appendParam_fst (k : String) (v : JsVal) (x : String × JsVal)
    (hx : x ∈ appendParam k v) : x.1 = k := by
  cases v with
  | undef => simp [appendParam] at hx
  | null => simp [appendParam] at hx
  | str s =>
    by_cases hs : s = ""
    · simp [appendParam, hs] at hx
    · simp [appendParam, hs] at hx
      simp [hx]
  | num q =>
    simp [appendParam] at hx
    simp [hx]
  | bool b =>
    simp [appendParam] at hx
    simp [hx]
  | arr xs =>
    simp [appendParam] at hx
    obtain ⟨a, ha, rfl⟩ := hx
    rfl

/-- Every key of the built query is a key of the params record. -/
theorem buildQuery_keys (ps : List (String × JsVal)) (x : String × JsVal)
    (hx : x ∈ buildQuery ps) : x.1 ∈ ps.map Prod.fst := by
  induction ps with
  | nil => simp [buildQuery] at hx
  | cons hd tl ih =>
    obtain ⟨k, v⟩ := hd
    simp only [buildQuery, List.mem_append] at hx
    rcases hx with hx | hx
    · simp [appendParam_fst k v x hx]
    · simp [ih hx]

/-- Keys of the built query, lifted to the params record. -/
theorem buildQuery_toParams_key (f : SearchFilters) (k : String)
    (hk : k ∈ (buildQuery (SearchFilters.toParams f)).map Prod.fst) :
    k ∈ (SearchFilters.toParams f).map Prod.fst := by
  obtain ⟨x, hx, rfl⟩ := List.mem_map.mp hk
  exact buildQuery_keys _ x hx

/-- A key of the whole params record belongs to one of its sections. -/
theorem key_of_toParams (f : SearchFilters) (k : String)
    (hk : k ∈ (SearchFilters.toParams f).map Prod.fst) :
    k ∈ (SearchFilters.baseParams f).map Prod.fst
    ∨ k ∈ (SearchFilters.locationParams f).map Prod.fst
    ∨ k ∈ (SearchFilters.radiusParams f).map Prod.fst
    ∨ k ∈ (SearchFilters.connectionParams f).map Prod.fst
    ∨ k ∈ (SearchFilters.levelParams f).map Prod.fst
    ∨ k ∈ (SearchFilters.statusParams f).map Prod.fst
    ∨ k ∈ (SearchFilters.operatorParams f).map Prod.fst
    ∨ k ∈ (SearchFilters.powerParams f).map Prod.fst
    ∨ k ∈ (SearchFilters.usageParams f).map Prod.fst
    ∨ k ∈ (SearchFilters.openDataParams f).map Prod.fst := by
  simp only [SearchFilters.toParams, List.map_append, List.mem_append] at hk
  tauto

theorem keys_baseParams (f : SearchFilters) (k : String)
    (h : k ∈ (SearchFilters.baseParams f).map Prod.fst) :
    k ∈ ["output", "countrycode", "maxresults", "compact", "verbose", "includecomments"] := by
  simp [SearchFilters.baseParams] at h
  simp [h]

theorem keys_locationParams (f : SearchFilters) (k : String)
    (h : k ∈ (SearchFilters.locationParams f).map Prod.fst) :
    k ∈ ["latitude", "longitude"] := by
  cases hl : f.location with
  | none => simp [SearchFilters.locationParams, hl] at h
  | some l =>
    simp [SearchFilters.locationParams, hl] at h
    simp [h]

theorem keys_radiusParams (f : SearchFilters) (k : String)
    (h : k ∈ (SearchFilters.radiusParams f).map Prod.fst) :
    k ∈ ["distance", "distanceunit"] := by
  cases hr : f.radius with
  | none => simp [SearchFilters.radiusParams, hr] at h
  | some r =>
    by_cases h0 : r = 0
    · simp [SearchFilters.radiusParams, hr, h0] at h
    · simp [SearchFilters.radiusParams, hr, h0] at h
      simp [h]

theorem keys_connectionParams (f : SearchFilters) (k : String)
    (h : k ∈ (SearchFilters.connectionParams f).map Prod.fst) :
    k ∈ ["connectiontypeid"] := by
  cases hc : f.connectionTypes with
  | none => simp [SearchFilters.connectionParams, hc] at h
  | some ids =>
    by_cases he : ids = []
    · simp [SearchFilters.connectionParams, hc, he] at h
    · simp [SearchFilters.connectionParams, hc, he] at h
      simp [h]

theorem keys_levelParams (f : SearchFilters) (k : String)
    (h : k ∈ (SearchFilters.levelParams f).map Prod.fst) :
    k ∈ ["levelid"] := by
  cases hc : f.levelIds with
  | none => simp [SearchFilters.levelParams, hc] at h
  | some ids =>
    by_cases he : ids = []
    · simp [SearchFilters.levelParams, hc, he] at h
    · simp [SearchFilters.levelParams, hc, he] at h
      simp [h]

theorem keys_statusParams (f : SearchFilters) (k : String)
    (h : k ∈ (SearchFilters.statusParams f).map Prod.fst) :
    k ∈ ["statustypeid"] := by
  cases hc : f.statusTypes with
  | none => simp [SearchFilters.statusParams, hc] at h
  | some ids =>
    by_cases he : ids = []
    · simp [SearchFilters.statusParams, hc, he] at h
    · simp [SearchFilters.statusParams, hc, he] at h
      simp [h]

theorem keys_operatorParams (f : SearchFilters) (k : String)
    (h : k ∈ (SearchFilters.operatorParams f).map Prod.fst) :
    k ∈ ["operatorid"] := by
  cases hc : f.operatorIds with
  | none => simp [SearchFilters.operatorParams, hc] at h
  | some ids =>
    by_cases he : ids = []
    · simp [SearchFilters.operatorParams, hc, he] at h
    · simp [SearchFilters.operatorParams, hc, he] at h
      simp [h]

theorem keys_powerParams (f : SearchFilters) (k : String)
    (h : k ∈ (SearchFilters.powerParams f).map Prod.fst) :
    k ∈ ["minpowerkw", "maxpowerkw"] := by
  cases hp : f.powerKW with
  | none => simp [SearchFilters.powerParams, hp] at h
  | some p =>
    simp only [SearchFilters.powerParams, hp, List.map_append, List.mem_append] at h
    rcases h with h | h
    · cases hm : p.min with
      | none => simp [hm] at h
      | some m =>
        by_cases h0 : m = 0
        · simp [hm, h0] at h
        · simp [hm, h0] at h
          simp [h]
    · cases hm : p.max with
      | none => simp [hm] at h
      | some m =>
        by_cases h0 : m = 0
        · simp [hm, h0] at h
        · simp [hm, h0] at h
          simp [h]

theorem keys_usageParams (f : SearchFilters) (k : String)
    (h : k ∈ (SearchFilters.usageParams f).map Prod.fst) :
    k ∈ ["usagetypeid"] := by
  cases hc : f.usageTypeId with
  | none => simp [SearchFilters.usageParams, hc] at h
  | some u =>
    by_cases h0 : u = 0
    · simp [SearchFilters.usageParams, hc, h0] at h
    · simp [SearchFilters.usageParams, hc, h0] at h
      simp [h]

theorem keys_openDataParams (f : SearchFilters) (k : String)
    (h : k ∈ (SearchFilters.openDataParams f).map Prod.fst) :
    k ∈ ["opendata"] := by
  cases hc : f.openData with
  | none => simp [SearchFilters.openDataParams, hc] at h
  | some b =>
    simp [SearchFilters.openDataParams, hc] at h
    simp [h]

/-- A zero radius contributes no parameters at all. -/
theorem radiusParams_zero (f : SearchFilters) (hr : f.radius = some 0) :
    SearchFilters.radiusParams f = [] := by
  simp [SearchFilters.radiusParams, hr]

/-- A zero minimum power bound contributes no `minpowerkw` parameter. -/
theorem powerParams_no_min (f : SearchFilters) (p : PowerRange)
    (hp : f.powerKW = some p) (hmin : p.min = some 0) :
    "minpowerkw" ∉ (SearchFilters.powerParams f).map Prod.fst := by
  intro h
  simp only [SearchFilters.powerParams, hp, hmin, List.map_append, List.mem_append] at h
  rcases h with h | h
  · simp at h
  · cases hm : p.max with
    | none => simp [hm] at h
    | some m =>
      by_cases h0 : m = 0
      · simp [hm, h0] at h
      · simp [hm, h0] at h

/-- A zero maximum power bound contributes no `maxpowerkw` parameter. -/
theorem powerParams_no_max (f : SearchFilters) (p : PowerRange)
    (hp : f.powerKW = some p) (hmax : p.max = some 0) :
    "maxpowerkw" ∉ (SearchFilters.powerParams f).map Prod.fst := by
  intro h
  simp only [SearchFilters.powerParams, hp, hmax, List.map_append, List.mem_append] at h
  rcases h with h | h
  · cases hm : p.min with
    | none => simp [hm] at h
    | some m =>
      by_cases h0 : m = 0
      · simp [hm, h0] at h
      · simp [hm, h0] at h
  · simp at h

/-- C10: JavaScript-falsy filter values are silently omitted from the
outgoing query: a zero radius emits neither `distance` nor `distanceunit`,
zero `powerKW` bounds emit neither `minpowerkw` nor `maxpowerkw`, and
`makeRequest` drops any parameter whose value is `undefined`, `null` or the
empty string — so the filter-to-parameter translation is not 1:1 for zero
or empty values. -/
theorem falsy_filters_omitted (f : SearchFilters) (p : PowerRange) (k : String)
    (ps : List (String × JsVal))
    (hr : f.radius = some 0) (hp : f.powerKW = some p)
    (hmin : p.min = some 0) (hmax : p.max = some 0) :
    "distance" ∉ (buildQuery (SearchFilters.toParams f)).map Prod.fst
    ∧ "distanceunit" ∉ (buildQuery (SearchFilters.toParams f)).map Prod.fst
    ∧ "minpowerkw" ∉ (buildQuery (SearchFilters.toParams f)).map Prod.fst
    ∧ "maxpowerkw" ∉ (buildQuery (SearchFilters.toParams f)).map Prod.fst
    ∧ buildQuery ((k, JsVal.undef) :: ps) = buildQuery ps
    ∧ buildQuery ((k, JsVal.null) :: ps) = buildQuery ps
    ∧ buildQuery ((k, JsVal.str "") :: ps) = buildQuery ps := by
  refine ⟨?_, ?_, ?_, ?_, by simp [buildQuery, appendParam], by simp [buildQuery, appendParam],
    by simp [buildQuery, appendParam]⟩
  · intro hmem
    rcases key_of_toParams f _ (buildQuery_toParams_key f _ hmem) with h|h|h|h|h|h|h|h|h|h
    · exact absurd (keys_baseParams f _ h) (by decide)
    · exact absurd (keys_locationParams f _ h) (by decide)
    · rw [radiusParams_zero f hr] at h
      simp at h
    · exact absurd (keys_connectionParams f _ h) (by decide)
    · exact absurd (keys_levelParams f _ h) (by decide)
    · exact absurd (keys_statusParams f _ h) (by decide)
    · exact absurd (keys_operatorParams f _ h) (by decide)
    · exact absurd (keys_powerParams f _ h) (by decide)
    · exact absurd (keys_usageParams f _ h) (by decide)
    · exact absurd (keys_openDataParams f _ h) (by decide)
  · intro hmem
    rcases key_of_toParams f _ (buildQuery_toParams_key f _ hmem) with h|h|h|h|h|h|h|h|h|h
    · exact absurd (keys_baseParams f _ h) (by decide)
    · exact absurd (keys_locationParams f _ h) (by decide)
    · rw [radiusParams_zero f hr] at h
      simp at h
    · exact absurd (keys_connectionParams f _ h) (by decide)
    · exact absurd (keys_levelParams f _ h) (by decide)
    · exact absurd (keys_statusParams f _ h) (by decide)
    · exact absurd (keys_operatorParams f _ h) (by decide)
    · exact absurd (keys_powerParams f _ h) (by decide)
    · exact absurd (keys_usageParams f _ h) (by decide)
    · exact absurd (keys_openDataParams f _ h) (by decide)
  · intro hmem
    rcases key_of_toParams f _ (buildQuery_toParams_key f _ hmem) with h|h|h|h|h|h|h|h|h|h
    · exact absurd (keys_baseParams f _ h) (by decide)
    · exact absurd (keys_locationParams f _ h) (by decide)
    · rw [radiusParams_zero f hr] at h
      simp at h
    · exact absurd (keys_connectionParams f _ h) (by decide)
    · exact absurd (keys_levelParams f _ h) (by decide)
    · exact absurd (keys_statusParams f _ h) (by decide)
    · exact absurd (keys_operatorParams f _ h) (by decide)
    · exact powerParams_no_min f p hp hmin h
    · exact absurd (keys_usageParams f _ h) (by decide)
    · exact absurd (keys_openDataParams f _ h) (by decide)
  · intro hmem
    rcases key_of_toParams f _ (buildQuery_toParams_key f _ hmem) with h|h|h|h|h|h|h|h|h|h
    · exact absurd (keys_baseParams f _ h) (by decide)
    · exact absurd (keys_locationParams f _ h) (by decide)
    · rw [radiusParams_zero f hr] at h
      simp at h
    · exact absurd (keys_connectionParams f _ h) (by decide)
    · exact absurd (keys_levelParams f _ h) (by decide)
    · exact absurd (keys_statusParams f _ h) (by decide)
    · exact absurd (keys_operatorParams f _ h) (by decide)
    · exact powerParams_no_max f p hp hmax h
    · exact absurd (keys_usageParams f _ h) (by decide)
    · exact absurd (keys_openDataParams f _ h) (by decide)

/-- C10 witness: the all-zero filter object. -/
theorem falsy_filters_omitted_witness :
    zeroFilters.radius = some 0
    ∧ zeroFilters.powerKW = some { min := some 0, max := some 0 }
    ∧ (PowerRange.mk (some 0) (some 0)).min = some 0
    ∧ (PowerRange.mk (some 0) (some 0)).max = some 0
    ∧ "distance" ∉ (buildQuery (SearchFilters.toParams zeroFilters)).map Prod.fst
    ∧ "distanceunit" ∉ (buildQuery (SearchFilters.toParams zeroFilters)).map Prod.fst
    ∧ "minpowerkw" ∉ (buildQuery (SearchFilters.toParams zeroFilters)).map Prod.fst
    ∧ "maxpowerkw" ∉ (buildQuery (SearchFilters.toParams zeroFilters)).map Prod.fst
    ∧ buildQuery [("k", JsVal.undef)] = buildQuery []
    ∧ buildQuery [("k", JsVal.null)] = buildQuery []
    ∧ buildQuery [("k", JsVal.str "")] = buildQuery [] := by
  have h := falsy_filters_omitted zeroFilters (PowerRange.mk (some 0) (some 0)) "k" []
    rfl rfl rfl rfl
  exact ⟨rfl, rfl, rfl, rfl, h.1, h.2.1, h.2.2.1, h.2.2.2.1, h.2.2.2.2.1,
    h.2.2.2.2.2.1, h.2.2.2.2.2.2⟩

end EvLocator
